import Mathlib

/-!
Shallow embedding of the momtobe API backend (src/main.py) together with the
parts of its excluded database/schema modules that the spec describes.
Python exceptions are modelled with `Except`; fallible external effects
(the document store, the outbound HTTP fetch, environment variables) are
modelled by explicit oracle arguments, so every handler is a total function
of the request and the oracles.
-/

namespace Momtobe

/-- Modelled from the spec: the Product record shape of the excluded
schemas module (§3 of the spec): title, description, price, category,
in_stock, image_url, sizes, is_featured. Price arithmetic never occurs in
this service, so the decimal price is embedded as a rational. -/
structure Product where
  title : String
  description : String
  price : Rat
  category : String
  in_stock : Bool
  image_url : String
  sizes : List String
  is_featured : Bool
deriving DecidableEq

/-- A stored document of the product collection: the product fields plus the
store-assigned internal identifier `_id` (absent before the store assigns
one, present on every record the store hands back). -/
structure Doc where
  oid : Option String
  data : Product
deriving DecidableEq

/-- `d.pop("_id", None)` on a stored document: the record with the internal
identifier removed. -/
def popId (d : Doc) : Doc :=
  { d with oid := none }

/-- `Product(**d)` on a record that carries the product fields: pydantic
validates the known fields and ignores the extra `_id` key, so validation of
a well-shaped record projects the product fields. -/
def validateProduct (d : Doc) : Product :=
  d.data

/-- The `filt` dict built by `list_products`: an optional exact-match
condition per field. -/
structure Filt where
  category : Option String
  featured : Option Bool
deriving DecidableEq

/-- Python truthiness of an `Optional[str]`: `None` and the empty string are
falsy, every other string is truthy (`if category:` in `list_products`,
`if os.getenv(...)` in `test_database`). -/
def pyStrTruthy : Option String → Bool
  | none => false
  | some s => s ≠ ""

/-- The filter construction of `list_products` (src/main.py lines 89-93):
`filt = {}`; `if category: filt["category"] = category`;
`if featured is not None: filt["is_featured"] = featured`. -/
def buildFilt (category : Option String) (featured : Option Bool) : Filt :=
  { category := if pyStrTruthy category then category else none
    featured := featured }

/-- Whether a stored document matches every condition of a filter exactly. -/
def matchesFilt (f : Filt) (d : Doc) : Bool :=
  (match f.category with
   | none => true
   | some c => d.data.category = c) &&
  (match f.featured with
   | none => true
   | some b => d.data.is_featured = b)

/-- Modelled from the spec: `get_documents(collection, filter)` of the
excluded database module returns the records of the collection matching
every supplied filter field exactly (§4.1, §4.3); store errors are the
caller's 500 path and are not needed by the claims settled here. -/
def get_documents (coll : List Doc) (f : Filt) : List Doc :=
  coll.filter (fun d => matchesFilt f d)

/-- Modelled from the spec: `count_documents({})` of the store counts the
records of the collection; the oracle `fail` stands for a store error,
which propagates to the caller (§4.1). -/
def count_documents (fail : Bool) (coll : List Doc) : Except String Nat :=
  if fail then Except.error "count failed" else Except.ok coll.length

/-- Modelled from the spec: `create_document("product", record)` persists
the record and returns the identifier the store assigns on insert (§3,
§4.1); the oracle `fail` stands for a store error, which propagates. -/
def create_document_product (fail : Bool) (coll : List Doc) (p : Product) :
    Except String (String × List Doc) :=
  if fail then Except.error "insert failed"
  else
    let oid := "oid" ++ toString (coll.length + 1)
    Except.ok (oid, coll ++ [⟨some oid, p⟩])

/-- The four fixed sample records of `_seed_products_if_empty`
(src/main.py lines 33-74). -/
def sampleProducts : List Product :=
  [ { title := "Комфортное платье для будущих мам"
      description := "Мягкое трикотажное платье с растущей талией."
      price := 59.99
      category := "Платья"
      in_stock := true
      image_url := "https://images.unsplash.com/photo-1556898578-c07eaed1f7f7?q=80&w=1200&auto=format&fit=crop"
      sizes := ["S", "M", "L", "XL"]
      is_featured := true }
  , { title := "Джинсы для беременных"
      description := "Эластичный пояс, удобная посадка и прочная ткань."
      price := 69.99
      category := "Джинсы"
      in_stock := true
      image_url := "https://images.unsplash.com/photo-1515378791036-0648a3ef77b2?q=80&w=1200&auto=format&fit=crop"
      sizes := ["S", "M", "L"]
      is_featured := true }
  , { title := "Футболка Basic"
      description := "Дышащий хлопок, свободный крой для живота."
      price := 24.99
      category := "Топы"
      in_stock := true
      image_url := "https://images.unsplash.com/photo-1512436991641-6745cdb1723f?q=80&w=1200&auto=format&fit=crop"
      sizes := ["S", "M", "L", "XL"]
      is_featured := false }
  , { title := "Теплый кардиган"
      description := "Мягкий оверсайз-кардиган на осень и зиму."
      price := 89.0
      category := "Верхняя одежда"
      in_stock := true
      image_url := "https://images.unsplash.com/photo-1515378791036-0648a3ef77b2?q=80&w=1200&auto=format&fit=crop"
      sizes := ["M", "L"]
      is_featured := false }
  ]

/-- The `for p in sample_products:` loop of `_seed_products_if_empty`
(src/main.py lines 75-80): each record is inserted in its own
try/except, so a failing insert is skipped and the loop continues. The
oracle `fails i` says whether the i-th insert raises. Returns the
resulting collection and the number of inserts attempted. -/
def seedLoop (fails : Nat → Bool) : Nat → List Product → List Doc → List Doc × Nat
  | _, [], coll => (coll, 0)
  | i, p :: rest, coll =>
    let coll' :=
      match create_document_product (fails i) coll p with
      | Except.ok r => r.2
      | Except.error _ => coll
    let r := seedLoop fails (i + 1) rest coll'
    (r.1, r.2 + 1)

/-- The body of the outer `try:` of `_seed_products_if_empty`
(src/main.py lines 28-80): return early when the database handle is
None, count the collection, and seed the four samples when the count is
zero. An error of the count escapes this core (to be caught by the outer
`except`). -/
def seedCore (dbAvail countFails : Bool) (fails : Nat → Bool) (coll : List Doc) :
    Except String (List Doc × Nat) :=
  if dbAvail = false then Except.ok (coll, 0)
  else
    match count_documents countFails coll with
    | Except.error e => Except.error e
    | Except.ok count =>
      if count = 0 then Except.ok (seedLoop fails 0 sampleProducts coll)
      else Except.ok (coll, 0)

/-- `_seed_products_if_empty` (src/main.py lines 27-82): the core wrapped in
the outer `try/except Exception: pass`, so every error is swallowed and the
function always returns to its caller. -/
def seedProductsIfEmpty (dbAvail countFails : Bool) (fails : Nat → Bool)
    (coll : List Doc) : List Doc × Nat :=
  match seedCore dbAvail countFails fails coll with
  | Except.ok r => r
  | Except.error _ => (coll, 0)

/-- The documents `list_products` passes to validation: the matching records
of the (possibly just seeded) collection, each with `_id` popped
(src/main.py lines 95-98). -/
def listPopped (dbAvail countFails : Bool) (fails : Nat → Bool) (coll : List Doc)
    (category : Option String) (featured : Option Bool) : List Doc :=
  let st := (seedProductsIfEmpty dbAvail countFails fails coll).1
  (get_documents st (buildFilt category featured)).map popId

/-- `list_products` (src/main.py lines 85-102) on the success path: seed if
empty, build the filter, fetch the matching documents, pop `_id` from each
and validate. Returns the response list together with the collection state
after seeding. -/
def list_products (dbAvail countFails : Bool) (fails : Nat → Bool) (coll : List Doc)
    (category : Option String) (featured : Option Bool) : List Product × List Doc :=
  let st := (seedProductsIfEmpty dbAvail countFails fails coll).1
  ((listPopped dbAvail countFails fails coll category featured).map validateProduct, st)

/-- The record shape of a contact form submission (`ContactRequest`,
src/main.py lines 105-108): three required strings. -/
structure ContactRequest where
  name : String
  email : String
  message : String
deriving DecidableEq

/-- Modelled from the spec: the Message record shape of the excluded
schemas module (§3): name, email, message body, all strings, so
`Message(**data.model_dump())` re-validates the already validated strings
and cannot fail. -/
structure Message where
  name : String
  email : String
  message : String
deriving DecidableEq

/-- Modelled from the spec: `create_document("message", record)` persists
the record and returns the identifier the store assigns on insert (§3,
§4.1, §4.4); the oracle `storeErr` stands for a raised store error carrying
its text. -/
def create_document_message (storeErr : Option String) (msgs : List Message)
    (m : Message) : Except String (String × List Message) :=
  match storeErr with
  | some e => Except.error e
  | none => Except.ok ("oid" ++ toString (msgs.length + 1), msgs ++ [m])

/-- Outcome of the `contact` handler: the JSON body `{"status": ..., "id": ...}`
or an `HTTPException(status_code, detail)`. -/
inductive ContactResult where
  | body (status : String) (id : String)
  | httpError (status : Nat) (detail : String)
deriving DecidableEq

/-- `contact` (src/main.py lines 111-118): wrap the input into a Message,
persist it and answer `{"status": "ok", "id": _id}`; any raised error is
turned into a 500 whose detail is the raw exception text. Returns the
result together with the message collection state. -/
def contact (storeErr : Option String) (msgs : List Message)
    (data : ContactRequest) : ContactResult × List Message :=
  match create_document_message storeErr msgs
      ⟨data.name, data.email, data.message⟩ with
  | Except.ok r => (ContactResult.body "ok" r.1, r.2)
  | Except.error e => (ContactResult.httpError 500 e, msgs)

/-- Python's `url.startswith(pre)`: the characters of `pre` are a prefix of
the characters of `url`. -/
def pyStartsWith (s pre : String) : Bool :=
  pre.data.isPrefixOf s.data

/-- What `requests.get(url, ...)` did: either it completed with an upstream
response (status-based `ok` flag, optional Content-Type header, body), or it
raised an exception carrying its text (connection error, timeout, ...). -/
structure HttpResp where
  ok : Bool
  contentType : Option String
  body : String
deriving DecidableEq

inductive FetchOutcome where
  | resp (r : HttpResp)
  | exn (e : String)
deriving DecidableEq

/-- Outcome of the `proxy_image` handler: a `StreamingResponse` with a media
type and extra headers, an `HTTPException`, or the raw 502 `Response`. -/
inductive ProxyResult where
  | stream (contentType : String) (headers : List (String × String)) (body : String)
  | httpError (status : Nat) (detail : String)
  | rawResponse (status : Nat) (content : String)
deriving DecidableEq

/-- The extra headers `proxy_image` attaches on success
(src/main.py lines 143-146). -/
def proxyHeaders : List (String × String) :=
  [("Cache-Control", "public, max-age=86400"),
   ("Access-Control-Allow-Origin", "*")]

/-- `proxy_image` (src/main.py lines 121-151): reject a URL not starting
with `http://` or `https://` with a 400 before fetching; otherwise fetch
(outcome supplied by the `fetch` oracle); a raised fetch exception falls to
the outer handler, which answers a raw 502 carrying the exception text; a
non-ok upstream response yields a 404; an ok response is streamed back with
the upstream Content-Type (default `image/jpeg`) and the cache/CORS
headers. The second component records whether the outbound fetch was
performed. -/
def proxy_image (fetch : FetchOutcome) (url : String) : ProxyResult × Bool :=
  if ¬ (pyStartsWith url "http://" || pyStartsWith url "https://") then
    (ProxyResult.httpError 400 "Invalid URL", false)
  else
    match fetch with
    | FetchOutcome.exn e => (ProxyResult.rawResponse 502 e, true)
    | FetchOutcome.resp r =>
      let contentType := r.contentType.getD "image/jpeg"
      if ¬ r.ok then
        (ProxyResult.httpError 404 "Image not found", true)
      else
        (ProxyResult.stream contentType proxyHeaders r.body, true)

/-- The environment variables the diagnostic endpoint inspects: `none` for
an unset variable, `some s` for one set to `s`. -/
structure EnvState where
  databaseUrl : Option String
  databaseName : Option String
deriving DecidableEq

/-- The database handle as the diagnostic endpoint sees it: its `name`
attribute when present, and the outcome of `list_collection_names()`
(a raised error is carried as its text). -/
structure DbHandle where
  dbName : Option String
  listCollectionNames : Except String (List String)

/-- The JSON body of the `/test` endpoint. The `database_url` and
`database_name` fields start as None in the response dict, so they are
option-valued. -/
structure DiagResponse where
  backend : String
  database : String
  database_url : Option String
  database_name : Option String
  connection_status : String
  collections : List String
deriving DecidableEq

/-- `test_database` (src/main.py lines 154-184): build the default
response, probe the handle with every failure caught and reported as a
string, then overwrite `database_url`/`database_name` unconditionally from
the environment variables alone. -/
def test_database (db : Option DbHandle) (env : EnvState) : DiagResponse :=
  let base : DiagResponse :=
    { backend := "✅ Running"
      database := "❌ Not Available"
      database_url := none
      database_name := none
      connection_status := "Not Connected"
      collections := [] }
  let probed : DiagResponse :=
    match db with
    | none => { base with database := "⚠️  Available but not initialized" }
    | some h =>
      let r1 := { base with
        database := "✅ Available"
        database_url := some "✅ Configured"
        database_name := some (h.dbName.getD "✅ Connected")
        connection_status := "Connected" }
      match h.listCollectionNames with
      | Except.ok cols =>
        { r1 with collections := cols.take 10, database := "✅ Connected & Working" }
      | Except.error e =>
        { r1 with database := "⚠️  Connected but Error: " ++ e.take 50 }
  { probed with
    database_url := some (if pyStrTruthy env.databaseUrl then "✅ Set" else "❌ Not Set")
    database_name := some (if pyStrTruthy env.databaseName then "✅ Set" else "❌ Not Set") }

/-! ## Theorems -/

/-- An insert oracle under which no insert fails. -/
def noFails : Nat → Bool := fun _ => false

/-- An insert oracle under which exactly the second insert fails. -/
def failsSecond : Nat → Bool := fun i => i = 1

/-- C3: for every url query parameter that does not start with `http://` or
`https://`, the image-proxy endpoint returns a 400 client error, and no
outbound network request is made for that call. -/
theorem proxy_image_bad_scheme (url : String) (fetch : FetchOutcome)
    (h : (pyStartsWith url "http://" || pyStartsWith url "https://") = false) :
    proxy_image fetch url = (ProxyResult.httpError 400 "Invalid URL", false) := by
  simp [proxy_image, h]

theorem proxy_image_bad_scheme_witness :
    proxy_image (FetchOutcome.resp ⟨true, some "image/png", "PNG"⟩)
        "ftp://example.com/a.png" =
      (ProxyResult.httpError 400 "Invalid URL", false) :=
  proxy_image_bad_scheme "ftp://example.com/a.png"
    (FetchOutcome.resp ⟨true, some "image/png", "PNG"⟩) (by decide)

/-- C4: for every well-formed url, a completed fetch with a non-success
upstream response yields a 404 not-found error, and a fetch that raises
yields a 502 response whose body carries the raw exception text. -/
theorem proxy_image_upstream_failures (url : String) (r : HttpResp) (e : String)
    (h : (pyStartsWith url "http://" || pyStartsWith url "https://") = true) :
    (r.ok = false →
      proxy_image (FetchOutcome.resp r) url =
        (ProxyResult.httpError 404 "Image not found", true)) ∧
    proxy_image (FetchOutcome.exn e) url = (ProxyResult.rawResponse 502 e, true) := by
  constructor
  · intro hok
    simp [proxy_image, h, hok]
  · simp [proxy_image, h]

theorem proxy_image_upstream_failures_witness :
    proxy_image (FetchOutcome.resp ⟨false, some "text/html", "gone"⟩)
        "https://img.example.com/a.png" =
      (ProxyResult.httpError 404 "Image not found", true) ∧
    proxy_image (FetchOutcome.exn "ReadTimeout") "https://img.example.com/a.png" =
      (ProxyResult.rawResponse 502 "ReadTimeout", true) :=
  ⟨(proxy_image_upstream_failures "https://img.example.com/a.png"
      ⟨false, some "text/html", "gone"⟩ "ReadTimeout" (by decide)).1 rfl,
   (proxy_image_upstream_failures "https://img.example.com/a.png"
      ⟨false, some "text/html", "gone"⟩ "ReadTimeout" (by decide)).2⟩

/-- C5: for every successful upstream fetch, the image-proxy response
preserves the upstream Content-Type (defaulting to image/jpeg when the
upstream omits it) and includes a `Cache-Control: public, max-age=86400`
header and a wildcard Access-Control-Allow-Origin header. -/
theorem proxy_image_success_headers (url : String) (r : HttpResp)
    (h : (pyStartsWith url "http://" || pyStartsWith url "https://") = true)
    (hok : r.ok = true) :
    proxy_image (FetchOutcome.resp r) url =
      (ProxyResult.stream (r.contentType.getD "image/jpeg") proxyHeaders r.body, true) ∧
    proxyHeaders.lookup "Cache-Control" = some "public, max-age=86400" ∧
    proxyHeaders.lookup "Access-Control-Allow-Origin" = some "*" := by
  refine ⟨?_, by decide, by decide⟩
  simp [proxy_image, h, hok]

theorem proxy_image_success_headers_witness :
    proxy_image (FetchOutcome.resp ⟨true, some "image/png", "PNGBODY"⟩)
        "https://img.example.com/a.png" =
      (ProxyResult.stream "image/png" proxyHeaders "PNGBODY", true) :=
  (proxy_image_success_headers "https://img.example.com/a.png"
    ⟨true, some "image/png", "PNGBODY"⟩ (by decide) rfl).1

/-- C10: a category query parameter equal to the empty string applies no
category condition: listing with category = "" returns the same result (and
collection state) as listing with the category parameter absent. -/
theorem list_products_empty_category_as_absent (dbAvail countFails : Bool)
    (fails : Nat → Bool) (coll : List Doc) (featured : Option Bool) :
    list_products dbAvail countFails fails coll (some "") featured =
      list_products dbAvail countFails fails coll none featured := rfl

theorem matchesFilt_category_sound (f : Filt) (d : Doc) (c : String)
    (hf : f.category = some c) (hm : matchesFilt f d = true) :
    d.data.category = c := by
  rw [matchesFilt, Bool.and_eq_true] at hm
  have h1 := hm.1
  rw [hf] at h1
  exact of_decide_eq_true h1

theorem matchesFilt_featured_sound (f : Filt) (d : Doc) (b : Bool)
    (hf : f.featured = some b) (hm : matchesFilt f d = true) :
    d.data.is_featured = b := by
  rw [matchesFilt, Bool.and_eq_true] at hm
  have h2 := hm.2
  rw [hf] at h2
  exact of_decide_eq_true h2

/-- C1 counterexample: with the category filter supplied as the empty
string, the listing returns a product whose category is not the given
string, so not every returned product matches the supplied filter. -/
theorem list_products_filter_claim_cex :
    ¬ (∀ p ∈ (list_products true false noFails
        [⟨some "oid1", ⟨"t", "d", 1, "Одежда", true, "u", ["M"], true⟩⟩]
        (some "") none).1, p.category = "") := by decide

/-- C1 (amended): for every request whose optional category filter, when
supplied, is a non-empty string, every product in the returned list matches
all supplied filters exactly, conjunctively when both are given. -/
theorem list_products_filters_sound (dbAvail countFails : Bool)
    (fails : Nat → Bool) (coll : List Doc) (category : Option String)
    (featured : Option Bool) (hcat : ∀ c, category = some c → c ≠ "") :
    ∀ p ∈ (list_products dbAvail countFails fails coll category featured).1,
      (∀ c, category = some c → p.category = c) ∧
      (∀ b, featured = some b → p.is_featured = b) := by
  intro p hp
  simp only [list_products, listPopped] at hp
  rcases List.mem_map.mp hp with ⟨d1, hd1, rfl⟩
  rcases List.mem_map.mp hd1 with ⟨d, hd, rfl⟩
  have hm : matchesFilt (buildFilt category featured) d = true :=
    (List.mem_filter.mp hd).2
  constructor
  · intro c hc
    subst hc
    have hne : c ≠ "" := hcat c rfl
    have hfc : (buildFilt (some c) featured).category = some c := by
      simp [buildFilt, pyStrTruthy, hne]
    exact matchesFilt_category_sound _ d c hfc hm
  · intro b hb
    subst hb
    exact matchesFilt_featured_sound _ d b rfl hm

theorem list_products_filters_sound_witness :
    (validateProduct (popId ⟨some "oid9",
        ⟨"t", "d", 1, "Топы", true, "u", ["M"], true⟩⟩)).category = "Топы" ∧
    (validateProduct (popId ⟨some "oid9",
        ⟨"t", "d", 1, "Топы", true, "u", ["M"], true⟩⟩)).is_featured = true := by
  have h := list_products_filters_sound true false noFails
      [⟨some "oid9", ⟨"t", "d", 1, "Топы", true, "u", ["M"], true⟩⟩]
      (some "Топы") (some true)
      (by intro c hc; cases hc; decide)
      (validateProduct (popId ⟨some "oid9",
        ⟨"t", "d", 1, "Топы", true, "u", ["M"], true⟩⟩))
      (by decide)
  exact ⟨h.1 "Топы" rfl, h.2 true rfl⟩

theorem seedLoop_data_all_ok (fails : Nat → Bool) (h : ∀ i, fails i = false) :
    ∀ (ps : List Product) (i : Nat) (coll : List Doc),
      (seedLoop fails i ps coll).1.map Doc.data = coll.map Doc.data ++ ps := by
  intro ps
  induction ps with
  | nil => intro i coll; simp [seedLoop]
  | cons p rest ih =>
    intro i coll
    simp [seedLoop, create_document_product, h i, ih]

theorem seedLoop_attempts (fails : Nat → Bool) :
    ∀ (ps : List Product) (i : Nat) (coll : List Doc),
      (seedLoop fails i ps coll).2 = ps.length := by
  intro ps
  induction ps with
  | nil => intro i coll; rfl
  | cons p rest ih =>
    intro i coll
    simp [seedLoop, ih]

/-- C2: when the product collection is empty and no insert fails, a
product-listing call leaves exactly the four sample products in the
collection; when the collection is non-empty, the seeding routine performs
zero insertions and leaves the collection unchanged. -/
theorem seeding_exactly_four_samples (fails : Nat → Bool) (coll : List Doc)
    (cat : Option String) (feat : Option Bool) :
    ((∀ i, fails i = false) →
      (list_products true false fails [] cat feat).2.map Doc.data = sampleProducts ∧
      (list_products true false fails [] cat feat).2.length = 4) ∧
    (coll ≠ [] → seedProductsIfEmpty true false fails coll = (coll, 0)) := by
  constructor
  · intro hf
    have h1 : (seedProductsIfEmpty true false fails []).1.map Doc.data =
        sampleProducts := by
      have hdata := seedLoop_data_all_ok fails hf sampleProducts 0 []
      simpa [seedProductsIfEmpty, seedCore, count_documents] using hdata
    have h2 : (seedProductsIfEmpty true false fails []).1.length = 4 := by
      have hlen := congrArg List.length h1
      simpa [sampleProducts] using hlen
    exact ⟨h1, h2⟩
  · intro hne
    have hlen : ¬ coll.length = 0 := by
      simpa [List.length_eq_zero] using hne
    simp [seedProductsIfEmpty, seedCore, count_documents, hlen]

theorem seeding_exactly_four_samples_witness :
    (list_products true false noFails [] none none).2.map Doc.data = sampleProducts ∧
    seedProductsIfEmpty true false noFails
        [⟨some "z", ⟨"t", "d", 1, "c", true, "u", [], false⟩⟩] =
      ([⟨some "z", ⟨"t", "d", 1, "c", true, "u", [], false⟩⟩], 0) :=
  ⟨((seeding_exactly_four_samples noFails [] none none).1 (fun _ => rfl)).1,
   (seeding_exactly_four_samples noFails
      [⟨some "z", ⟨"t", "d", 1, "c", true, "u", [], false⟩⟩] none none).2 (by decide)⟩

/-- C6: for every contact submission, when the store insert succeeds the
endpoint returns a body with status "ok" and a non-empty identifier, and
when the store raises the endpoint returns a 500 error whose detail is the
raw exception text. -/
theorem contact_ok_and_error (msgs : List Message) (data : ContactRequest) :
    (∃ id, (contact none msgs data).1 = ContactResult.body "ok" id ∧ id ≠ "") ∧
    (∀ e, (contact (some e) msgs data).1 = ContactResult.httpError 500 e) := by
  constructor
  · refine ⟨"oid" ++ toString (msgs.length + 1), rfl, ?_⟩
    intro hcontra
    have hlen := congrArg String.length hcontra
    simp [String.length_append] at hlen
    exact absurd hlen.1 (by decide)
  · intro e
    rfl

theorem contact_ok_and_error_witness :
    (contact (some "db down") [] ⟨"Ann", "ann@example.com", "hi"⟩).1 =
      ContactResult.httpError 500 "db down" :=
  (contact_ok_and_error [] ⟨"Ann", "ann@example.com", "hi"⟩).2 "db down"

/-- C7: the diagnostic endpoint is a total function of the handle and the
environment (every internal failure is caught and reported as a string),
and its database_url/database_name fields are determined solely by whether
the DATABASE_URL and DATABASE_NAME environment variables are set, for every
database handle. -/
theorem test_database_env_fields (db : Option DbHandle) (env : EnvState) :
    (test_database db env).database_url =
      some (if pyStrTruthy env.databaseUrl then "✅ Set" else "❌ Not Set") ∧
    (test_database db env).database_name =
      some (if pyStrTruthy env.databaseName then "✅ Set" else "❌ Not Set") ∧
    (∀ hnd e, hnd.listCollectionNames = Except.error e →
      (test_database (some hnd) env).database =
        "⚠️  Connected but Error: " ++ e.take 50) := by
  refine ⟨rfl, rfl, ?_⟩
  intro hnd e he
  simp [test_database, he]

set_option maxRecDepth 8000 in
theorem test_database_env_fields_witness :
    (test_database (some ⟨some "mydb", Except.error "boom"⟩)
        ⟨some "mongodb://x", none⟩).database_url = some "✅ Set" ∧
    (test_database (some ⟨some "mydb", Except.error "boom"⟩)
        ⟨some "mongodb://x", none⟩).database_name = some "❌ Not Set" ∧
    (test_database (some ⟨some "mydb", Except.error "boom"⟩)
        ⟨some "mongodb://x", none⟩).database = "⚠️  Connected but Error: boom" := by
  have h := test_database_env_fields (some ⟨some "mydb", Except.error "boom"⟩)
    ⟨some "mongodb://x", none⟩
  refine ⟨?_, ?_, ?_⟩
  · rw [h.1]; decide
  · rw [h.2.1]; decide
  · rw [h.2.2 ⟨some "mydb", Except.error "boom"⟩ "boom" rfl]; decide

/-- C8: the seeding routine never raises to its caller — its core either
succeeds with the returned value or fails only on the count, in which case
the outer handler swallows the error and returns the collection unchanged;
when seeding runs, all four inserts are attempted for every combination of
individual insert failures; and the listing response is produced from the
seeded state for every failure combination. -/
theorem seeding_never_raises (dbAvail countFails : Bool) (fails : Nat → Bool)
    (coll : List Doc) (cat : Option String) (feat : Option Bool) :
    (seedCore dbAvail countFails fails coll =
        Except.ok (seedProductsIfEmpty dbAvail countFails fails coll) ∨
      (seedCore dbAvail countFails fails coll = Except.error "count failed" ∧
        seedProductsIfEmpty dbAvail countFails fails coll = (coll, 0))) ∧
    (dbAvail = true → countFails = false → coll = [] →
      (seedProductsIfEmpty dbAvail countFails fails coll).2 = 4) ∧
    (list_products dbAvail countFails fails coll cat feat).1 =
      (listPopped dbAvail countFails fails coll cat feat).map validateProduct := by
  refine ⟨?_, ?_, rfl⟩
  · cases dbAvail with
    | false => left; rfl
    | true =>
      cases countFails with
      | true =>
        right
        exact ⟨rfl, rfl⟩
      | false =>
        left
        by_cases hc : coll.length = 0 <;>
          simp [seedCore, seedProductsIfEmpty, count_documents, hc]
  · intro h1 h2 h3
    subst h1; subst h2; subst h3
    have := seedLoop_attempts fails sampleProducts 0 []
    simpa [seedProductsIfEmpty, seedCore, count_documents, sampleProducts]
      using this

theorem seeding_never_raises_witness :
    (seedProductsIfEmpty true false failsSecond []).2 = 4 :=
  (seeding_never_raises true false failsSecond [] none none).2.1 rfl rfl rfl

/-- C9: every document the product-listing endpoint passes to validation
has its internal store identifier removed, for every database state and
filter combination, and the returned products are exactly the validations
of those stripped documents. -/
theorem list_products_strips_oid (dbAvail countFails : Bool)
    (fails : Nat → Bool) (coll : List Doc) (cat : Option String)
    (feat : Option Bool) :
    (∀ d ∈ listPopped dbAvail countFails fails coll cat feat, d.oid = none) ∧
    (list_products dbAvail countFails fails coll cat feat).1 =
      (listPopped dbAvail countFails fails coll cat feat).map validateProduct := by
  refine ⟨?_, rfl⟩
  intro d hd
  simp only [listPopped, List.mem_map] at hd
  rcases hd with ⟨d0, _, rfl⟩
  rfl

end Momtobe
